import Mathlib

/-!
Shallow embedding of the ntfy-node message broker (src/index.ts) in Lean 4.

The durable SQLite table "messages" is modelled as a `List Item` in insertion
order (rows are produced by plain SELECTs in storage order, which for this
table is rowid order, i.e. insertion order).  Times are `Int` seconds since
the epoch.  The in-memory live-subscriber map `_sockets` is modelled as an
association list from topic to the list of subscriber handles (handles are
`Nat` identifiers; JS `Set` insertion order is kept).
-/

set_option autoImplicit false

namespace NtfyNode

/-- A stored message row: columns `id, time, expires, topic, priority, message`
of the "messages" table (src/index.ts, type `Item`). -/
structure Item where
  id : String
  time : Int
  expires : Int
  topic : String
  priority : Int
  message : String
deriving Repr, DecidableEq

/-- The durable message store: rows in insertion order. -/
abbrev Store := List Item

/-- Retention window: `const timeout = 12 * 3600` (src/index.ts line 26). -/
def timeout : Int := 12 * 3600

/-- The schema declares `"id" TEXT NOT NULL UNIQUE`: an INSERT conflicts when an
existing row carries the same `id`, whatever its topic. -/
def violatesUniqueId (store : Store) (item : Item) : Bool :=
  store.any (fun r => r.id == item.id)

/-- The schema declares `PRIMARY KEY("id", "topic")`: an INSERT conflicts when an
existing row carries the same `(id, topic)` pair. -/
def violatesPrimaryKey (store : Store) (item : Item) : Bool :=
  store.any (fun r => r.id == item.id && r.topic == item.topic)

/-- Model of `_save` (src/index.ts lines 243-264): `CREATE TABLE IF NOT EXISTS`
is idempotent and omitted; the INSERT throws a constraint violation when either
the UNIQUE index on `id` or the primary key `(id, topic)` is violated, and
otherwise appends the row at the end of the table. -/
def _save (store : Store) (item : Item) : Except Unit Store :=
  if violatesUniqueId store item || violatesPrimaryKey store item then
    .error ()
  else
    .ok (store ++ [item])

/-- Model of `_remove_expired` (src/index.ts lines 352-359):
`DELETE FROM "messages" WHERE "expires" < now` keeps exactly the rows with
`expires >= now`, in order. -/
def _remove_expired (store : Store) (now : Int) : Store :=
  store.filter (fun r => decide (now ≤ r.expires))

/-- Digit string to number, most significant first (the usual decimal reading
shared by the text-to-integer conversion of SQLite and JS `parseInt`). -/
def natOfDigits (cs : List Char) : Nat :=
  cs.foldl (fun acc c => acc * 10 + (c.toNat - 48)) 0

/-- SQLite comparison affinity: the `"time" >= ?` comparisons bind a TEXT
parameter against an INTEGER-affinity column, so the text is converted to a
number when it is a well-formed (optionally signed) integer literal; a text
value that does not convert compares greater than every integer, making
`time >= text` false for every row.  `none` means "does not convert". -/
def sqliteIntOfText (s : String) : Option Int :=
  match s.data with
  | [] => none
  | '-' :: rest =>
      if rest ≠ [] ∧ rest.all Char.isDigit then some (-(natOfDigits rest : Int)) else none
  | '+' :: rest =>
      if rest ≠ [] ∧ rest.all Char.isDigit then some (natOfDigits rest : Int) else none
  | cs =>
      if cs.all Char.isDigit then some (natOfDigits cs : Int) else none

/-- The SQL predicate `"time" >= ?` with a TEXT parameter `s` against the
INTEGER column value `t` (see `sqliteIntOfText`). -/
def timeGEText (t : Int) (s : String) : Bool :=
  match sqliteIntOfText s with
  | some v => decide (v ≤ t)
  | none => false

/-- Seconds per duration unit accepted by the `switch (unit)` in `_query`
(src/index.ts lines 316-337).  The regex `^(\d+)([smhd])$` only produces the
lowercase letters, so the uppercase `case` branches are unreachable. -/
def unitSeconds (c : Char) : Int :=
  if c = 's' then 1
  else if c = 'm' then 60
  else if c = 'h' then 3600
  else if c = 'd' then 3600 * 24
  else 0

/-- The duration regex `/^(\d+)([smhd])$/` (src/index.ts line 267): one or more
digits followed by a single lowercase unit letter. -/
def matchesDurationRegex (s : String) : Bool :=
  match s.data.getLast? with
  | none => false
  | some u =>
      s.data.dropLast ≠ [] && s.data.dropLast.all Char.isDigit &&
        (u == 's' || u == 'm' || u == 'h' || u == 'd')

/-- Number of seconds denoted by a string matching the duration regex:
`parseInt(num) * unit_seconds` for the captured groups. -/
def durationSeconds (s : String) : Int :=
  match s.data.getLast? with
  | none => 0
  | some u => (natOfDigits s.data.dropLast : Int) * unitSeconds u

/-- SELECT ... WHERE "topic" = ? — all rows of the topic, storage order. -/
def selectByTopic (store : Store) (topic : String) : List Item :=
  store.filter (fun r => r.topic == topic)

/-- SELECT ... WHERE "topic" = ? AND "time" >= ? with a TEXT bound (the
10-character `since` branch binds the raw string). -/
def selectByTopicSinceText (store : Store) (topic : String) (s : String) : List Item :=
  store.filter (fun r => r.topic == topic && timeGEText r.time s)

/-- SELECT ... WHERE "topic" = ? AND time >= ? with an INTEGER bound. -/
def selectByTopicSinceTime (store : Store) (topic : String) (bound : Int) : List Item :=
  store.filter (fun r => r.topic == topic && decide (bound ≤ r.time))

/-- The scalar subquery `(SELECT "time" FROM "messages" WHERE "id" = ?)`:
the time of the first stored row with that id (the UNIQUE index makes it the
only one), `none` (SQL NULL) when no row matches.  The lookup is not scoped to
the queried topic. -/
def timeOfId (store : Store) (msgId : String) : Option Int :=
  (store.find? (fun r => r.id == msgId)).map (fun r => r.time)

/-- SELECT ... WHERE "topic" = ? AND time >= (SELECT "time" ... WHERE "id" = ?):
when the subquery is NULL the comparison is NULL, which is not true, so no row
qualifies. -/
def selectByTopicSinceId (store : Store) (topic : String) (msgId : String) : List Item :=
  match timeOfId store msgId with
  | some t => selectByTopicSinceTime store topic t
  | none => []

/-- Model of `_query` (src/index.ts lines 266-350): the `switch (true)` over the
`since` selector.  `since = none` models a null `since` parameter; `now` is
`Math.floor(Date.now() / 1000)` read in the duration branch. -/
def _query (store : Store) (topic : String) (since : Option String) (now : Int) :
    List Item :=
  match since with
  | none => selectByTopic store topic
  | some s =>
      if s = "" then selectByTopic store topic
      else if s = "all" then selectByTopic store topic
      else if s.length = 10 then selectByTopicSinceText store topic s
      else if s.length = 12 then selectByTopicSinceId store topic s
      else if matchesDurationRegex s then
        selectByTopicSinceTime store topic (now - durationSeconds s)
      else []

/-- The time predicate that a `since` selector resolves to: the per-row filter
applied (on top of the topic equality) by the branch of `_query` that the
selector reaches. -/
def resolvedPred (store : Store) (since : Option String) (now : Int) : Item → Bool :=
  match since with
  | none => fun _ => true
  | some s =>
      if s = "" then fun _ => true
      else if s = "all" then fun _ => true
      else if s.length = 10 then fun r => timeGEText r.time s
      else if s.length = 12 then
        match timeOfId store s with
        | some t => fun r => decide (t ≤ r.time)
        | none => fun _ => false
      else if matchesDurationRegex s then fun r => decide (now - durationSeconds s ≤ r.time)
      else fun _ => false

/-- A "message" wire record: the exact field set of the JSON objects built in
`_fetch` and `_broadcast`.  `priority = none` means the key is absent from the
object: the conditional spread emits no `priority` key when the value is 3. -/
structure Wire where
  id : String
  time : Int
  expires : Int
  event : String
  topic : String
  message : String
  priority : Option Int
deriving Repr, DecidableEq

/-- One line of the `/{topic}/json` replay response (src/index.ts line 157):
spread of the stored row minus `priority`, the conditional `priority` spread,
and `event: "message"`. -/
def fetchLine (r : Item) : Wire :=
  { id := r.id, time := r.time, expires := r.expires, event := "message",
    topic := r.topic, message := r.message,
    priority := if r.priority = 3 then none else some r.priority }

/-- The record sent to each live subscriber in `_broadcast`
(src/index.ts lines 218-226). -/
def socketWire (r : Item) : Wire :=
  { id := r.id, time := r.time, expires := r.expires, event := "message",
    topic := r.topic, message := r.message,
    priority := if r.priority = 3 then none else some r.priority }

/-- The publish acknowledgment body written by `_broadcast`
(src/index.ts lines 231-239). -/
def ackWire (r : Item) : Wire :=
  { id := r.id, time := r.time, expires := r.expires, event := "message",
    topic := r.topic, message := r.message,
    priority := if r.priority = 3 then none else some r.priority }

/-- The structured rejection body for an out-of-range priority
(src/index.ts lines 179-184). -/
structure ErrPayload where
  code : Nat
  http : Nat
  error : String
  link : String
deriving Repr, DecidableEq

/-- The 40007 "invalid priority parameter" payload. -/
def err40007 : ErrPayload :=
  { code := 40007, http := 400, error := "invalid priority parameter",
    link := "https://ntfy.sh/docs/publish/#message-priority" }

/-- JS `parseInt(s, 10)`: skip leading whitespace, optional sign, then the
longest digit prefix; `none` models `NaN` (no digits found). -/
def parseIntJS (s : String) : Option Int :=
  let cs := s.data.dropWhile Char.isWhitespace
  let digits (ds : List Char) : Option Nat :=
    let p := ds.takeWhile Char.isDigit
    if p = [] then none else some (natOfDigits p)
  match cs with
  | '-' :: rest => (digits rest).map (fun n => -(n : Int))
  | '+' :: rest => (digits rest).map (fun n => (n : Int))
  | _ => (digits cs).map (fun n => (n : Int))

/-- The JS `||` default applied to the priority header (src/index.ts line 169):
a missing header and an empty-string header both fall back to `"3"`. -/
def jsOrDefault3 (h : Option String) : String :=
  match h with
  | none => "3"
  | some s => if s = "" then "3" else s

/-- The JS `content || "triggered"` coercion of the request body
(src/index.ts line 186). -/
def bodyOrTriggered (body : String) : String :=
  if body = "" then "triggered" else body

/-- The live subscriber registry `_sockets : Map<string, Set<WebSocket>>`
(src/index.ts line 93): association list in Map insertion order, each topic
with its subscriber handles in Set insertion order. -/
abbrev Registry := List (String × List Nat)

/-- One step of the subscribe loop (src/index.ts lines 106-109): create the
set of the topic if absent, then `Set.add` the client (a no-op on a member). -/
def addSub (topic : String) (client : Nat) : Registry → Registry
  | [] => [(topic, [client])]
  | (t, s) :: rest =>
      if t = topic then (t, if client ∈ s then s else s ++ [client]) :: rest
      else (t, s) :: addSub topic client rest

/-- The `topics.forEach` subscribe loop of the connection handler. -/
def subscribe (topics : List String) (client : Nat) (reg : Registry) : Registry :=
  topics.foldl (fun r t => addSub t client r) reg

/-- Model of `_close` (src/index.ts lines 193-198): delete the client from
the set of every topic, and drop any topic whose set became empty. -/
def _close (client : Nat) (reg : Registry) : Registry :=
  (reg.map (fun p => (p.1, p.2.filter (fun c => c ≠ client)))).filter
    (fun p => p.2 ≠ ([] : List Nat))

/-- Subscribers currently registered for a topic (`_sockets.get(topic)`,
an absent key giving the empty set via `?.`). -/
def lookupTopic (reg : Registry) (topic : String) : List Nat :=
  match reg.find? (fun p => p.1 == topic) with
  | some p => p.2
  | none => []

/-- The item built by `_broadcast` (src/index.ts lines 205-213); `id` and `now`
are supplied by the nondeterministic environment (`getRandomId`, `Date.now`). -/
def mkItem (topic : String) (priority : Int) (content : String) (id : String)
    (now : Int) : Item :=
  { id := id, time := now, expires := now + timeout, topic := topic,
    priority := priority, message := content }

/-- Outcome of one publish request. -/
inductive PublishOutcome where
  /-- 400 response with a structured error payload; nothing written, no fan-out. -/
  | rejected (e : ErrPayload)
  /-- `_save` threw a constraint violation: the publish fails before any fan-out. -/
  | saveFailed
  /-- 200 response: the committed store, the acknowledgment body, and the
  fan-out deliveries (subscriber handle paired with the record it was sent). -/
  | ok (store : Store) (ack : Wire) (fanout : List (Nat × Wire))
deriving Repr, DecidableEq

/-- Model of the publish path of `_fetch` (src/index.ts lines 161-188) followed
by `_broadcast` (lines 200-241): parse the `X-Priority` header with the `"3"`
fallback, reject values outside 1..5, then build the item, `_save` it, and only
then fan out to the live subscribers of the topic and acknowledge.  A header that
parses to NaN passes both range checks (NaN comparisons are false) and reaches
`_save`, where binding NaN yields SQL NULL and the NOT NULL constraint on
`priority` makes the INSERT throw — modelled as `saveFailed`. -/
def publish (store : Store) (reg : Registry) (topic : String) (header : Option String)
    (body : String) (id : String) (now : Int) : PublishOutcome :=
  match parseIntJS (jsOrDefault3 header) with
  | none => .saveFailed
  | some p =>
      if p < 1 ∨ 5 < p then .rejected err40007
      else
        let item := mkItem topic p (bodyOrTriggered body) id now
        match _save store item with
        | .error _ => .saveFailed
        | .ok store' =>
            .ok store' (ackWire item)
              ((lookupTopic reg topic).map (fun c => (c, socketWire item)))

/-- The store as the caller observes it after a publish: unchanged unless the
outcome committed. -/
def storeAfter (o : PublishOutcome) (before : Store) : Store :=
  match o with
  | .ok s _ _ => s
  | _ => before

/-- The live deliveries a publish performed: none unless the outcome committed. -/
def fanoutOf (o : PublishOutcome) : List (Nat × Wire) :=
  match o with
  | .ok _ _ f => f
  | _ => []

/-- A primary-key conflict on `(id, topic)` is in particular an `id` conflict,
so the UNIQUE index on `id` subsumes the primary key. -/
theorem violatesPrimaryKey_imp_violatesUniqueId (store : Store) (item : Item)
    (h : violatesPrimaryKey store item = true) : violatesUniqueId store item = true := by
  simp only [violatesPrimaryKey, violatesUniqueId, List.any_eq_true, Bool.and_eq_true] at *
  obtain ⟨r, hr, h1, _⟩ := h
  exact ⟨r, hr, h1⟩

/-- An insert succeeds as soon as no stored row shares its `id`. -/
theorem save_ok_of_fresh_id (store : Store) (item : Item)
    (h : violatesUniqueId store item = false) :
    _save store item = .ok (store ++ [item]) := by
  have hpk : violatesPrimaryKey store item = false := by
    cases hp : violatesPrimaryKey store item with
    | false => rfl
    | true => rw [violatesPrimaryKey_imp_violatesUniqueId store item hp] at h; cases h
  simp [_save, h, hpk]

/-- C1 counterexample: a record whose `(id, topic)` pair is absent from the
store (same id as a stored row, but a different topic) still makes `append`
fail with a constraint violation, because the schema also declares `id`
globally UNIQUE. -/
theorem C1_pair_counterexample :
    violatesPrimaryKey
        [Item.mk "abcdefghijkl" 1000 44200 "alerts" 3 "m"]
        (Item.mk "abcdefghijkl" 1001 44201 "ops" 5 "n") = false ∧
    _save [Item.mk "abcdefghijkl" 1000 44200 "alerts" 3 "m"]
        (Item.mk "abcdefghijkl" 1001 44201 "ops" 5 "n") = .error () := by
  constructor
  · rfl
  · rfl

/-- C1 (amended): append fails with a constraint violation exactly when a row
with the same `id` already exists, in any topic; for a record whose `id` is
fresh the append succeeds and persists the row at the end of the store, and on
failure nothing is written. -/
theorem C1_append_unique_id (store : Store) (item : Item) :
    ((∀ r ∈ store, r.id ≠ item.id) → _save store item = .ok (store ++ [item])) ∧
    ((∃ r ∈ store, r.id = item.id) → _save store item = .error ()) := by
  constructor
  · intro h
    apply save_ok_of_fresh_id
    simp only [violatesUniqueId, List.any_eq_false]
    intro r hr
    simpa using h r hr
  · intro h
    have hu : violatesUniqueId store item = true := by
      simp only [violatesUniqueId, List.any_eq_true]
      obtain ⟨r, hr, h1⟩ := h
      exact ⟨r, hr, by simpa using h1⟩
    simp [_save, hu]

/-- C1 witness: at a concrete store, a fresh id commits and a duplicate id
(with the same or a different topic) errors. -/
theorem C1_append_unique_id_witness :
    _save [Item.mk "abcdefghijkl" 1000 44200 "alerts" 3 "m"]
        (Item.mk "zzzzzzzzzzzz" 1001 44201 "alerts" 5 "n") =
      .ok [Item.mk "abcdefghijkl" 1000 44200 "alerts" 3 "m",
           Item.mk "zzzzzzzzzzzz" 1001 44201 "alerts" 5 "n"] ∧
    _save [Item.mk "abcdefghijkl" 1000 44200 "alerts" 3 "m"]
        (Item.mk "abcdefghijkl" 1001 44201 "alerts" 5 "n") = .error () := by
  constructor
  · exact (C1_append_unique_id
      [Item.mk "abcdefghijkl" 1000 44200 "alerts" 3 "m"]
      (Item.mk "zzzzzzzzzzzz" 1001 44201 "alerts" 5 "n")).1 (by decide)
  · exact (C1_append_unique_id
      [Item.mk "abcdefghijkl" 1000 44200 "alerts" 3 "m"]
      (Item.mk "abcdefghijkl" 1001 44201 "alerts" 5 "n")).2
      ⟨Item.mk "abcdefghijkl" 1000 44200 "alerts" 3 "m", by decide, rfl⟩

/-- C3: a row survives `sweep(now)` exactly when `expires >= now`; surviving
rows are kept unchanged and in order, rows with `expires < now` are gone, and
the sweep is idempotent at the same `now`. -/
theorem C3_sweep_retention (store : Store) (now : Int) :
    (∀ r ∈ _remove_expired store now, now ≤ r.expires) ∧
    (∀ r ∈ store, r.expires < now → r ∉ _remove_expired store now) ∧
    (∀ r ∈ store, now ≤ r.expires → r ∈ _remove_expired store now) ∧
    (_remove_expired store now).Sublist store ∧
    _remove_expired (_remove_expired store now) now = _remove_expired store now := by
  refine ⟨?_, ?_, ?_, ?_, ?_⟩
  · intro r hr
    simp only [_remove_expired, List.mem_filter, decide_eq_true_eq] at hr
    exact hr.2
  · intro r _ hlt hmem
    simp only [_remove_expired, List.mem_filter, decide_eq_true_eq] at hmem
    omega
  · intro r hr hle
    simp only [_remove_expired, List.mem_filter, decide_eq_true_eq]
    exact ⟨hr, hle⟩
  · exact List.filter_sublist store
  · simp [_remove_expired, List.filter_filter]

/-- C3 witness: a concrete sweep keeps the unexpired row, drops the expired
one, and sweeping again changes nothing. -/
theorem C3_sweep_retention_witness :
    Item.mk "aaaaaaaaaaaa" 10 50 "t" 3 "x" ∈
      _remove_expired
        [Item.mk "aaaaaaaaaaaa" 10 50 "t" 3 "x", Item.mk "bbbbbbbbbbbb" 1 20 "t" 3 "y"] 30 ∧
    Item.mk "bbbbbbbbbbbb" 1 20 "t" 3 "y" ∉
      _remove_expired
        [Item.mk "aaaaaaaaaaaa" 10 50 "t" 3 "x", Item.mk "bbbbbbbbbbbb" 1 20 "t" 3 "y"] 30 := by
  constructor
  · exact (C3_sweep_retention
      [Item.mk "aaaaaaaaaaaa" 10 50 "t" 3 "x", Item.mk "bbbbbbbbbbbb" 1 20 "t" 3 "y"] 30).2.2.1
      (Item.mk "aaaaaaaaaaaa" 10 50 "t" 3 "x") (by decide) (by decide)
  · exact (C3_sweep_retention
      [Item.mk "aaaaaaaaaaaa" 10 50 "t" 3 "x", Item.mk "bbbbbbbbbbbb" 1 20 "t" 3 "y"] 30).2.1
      (Item.mk "bbbbbbbbbbbb" 1 20 "t" 3 "y") (by decide) (by decide)

/-- Every branch of `_query` filters the store through the topic equality and
the time predicate the selector resolved to. -/
theorem query_eq_filter (store : Store) (topic : String) (since : Option String)
    (now : Int) :
    _query store topic since now =
      store.filter (fun r => r.topic == topic && resolvedPred store since now r) := by
  cases since with
  | none => simp [_query, resolvedPred, selectByTopic]
  | some s =>
      by_cases h1 : s = ""
      · simp [_query, resolvedPred, selectByTopic, h1]
      · by_cases h2 : s = "all"
        · simp [_query, resolvedPred, selectByTopic, h1, h2]
        · by_cases h3 : s.length = 10
          · simp [_query, resolvedPred, selectByTopicSinceText, h1, h2, h3]
          · by_cases h4 : s.length = 12
            · cases ht : timeOfId store s with
              | some t =>
                  simp [_query, resolvedPred, selectByTopicSinceId,
                    selectByTopicSinceTime, h1, h2, h3, h4, ht]
              | none =>
                  simp [_query, resolvedPred, selectByTopicSinceId, h1, h2, h3, h4, ht]
            · by_cases h5 : matchesDurationRegex s
              · simp [_query, resolvedPred, selectByTopicSinceTime, h1, h2, h3, h4, h5]
              · simp [_query, resolvedPred, h1, h2, h3, h4, h5]

/-- C2: for every topic and resolved since-filter, the replay query returns
exactly the stored rows of the topic satisfying the filter, as a subsequence of
the store (insertion order); when stored times are ascending — time is assigned
at publish and rows are appended — the result is ordered by ascending time. -/
theorem C2_query_filter_order (store : Store) (topic : String) (since : Option String)
    (now : Int) (hmono : store.Pairwise (fun a b => a.time ≤ b.time)) :
    (∀ r, r ∈ _query store topic since now ↔
        r ∈ store ∧ r.topic = topic ∧ resolvedPred store since now r = true) ∧
    (_query store topic since now).Sublist store ∧
    (_query store topic since now).Pairwise (fun a b => a.time ≤ b.time) := by
  refine ⟨?_, ?_, ?_⟩
  · intro r
    rw [query_eq_filter]
    simp [List.mem_filter]
  · rw [query_eq_filter]
    exact List.filter_sublist store
  · exact List.Pairwise.sublist
      (query_eq_filter store topic since now ▸ List.filter_sublist store) hmono

/-- C2 witness: a two-row store queried with an explicit timestamp selector
yields exactly the qualifying row, in ascending-time order. -/
theorem C2_query_filter_order_witness :
    (Item.mk "bbbbbbbbbbbb" 1500 44700 "t" 3 "y" ∈
        _query [Item.mk "aaaaaaaaaaaa" 1000 44200 "t" 3 "x",
                Item.mk "bbbbbbbbbbbb" 1500 44700 "t" 3 "y"] "t" (some "0000001200") 0) ∧
    (_query [Item.mk "aaaaaaaaaaaa" 1000 44200 "t" 3 "x",
             Item.mk "bbbbbbbbbbbb" 1500 44700 "t" 3 "y"] "t"
        (some "0000001200") 0).Pairwise (fun a b => a.time ≤ b.time) := by
  have h := C2_query_filter_order
    [Item.mk "aaaaaaaaaaaa" 1000 44200 "t" 3 "x",
     Item.mk "bbbbbbbbbbbb" 1500 44700 "t" 3 "y"] "t" (some "0000001200") 0
    (by decide)
  exact ⟨(h.1 (Item.mk "bbbbbbbbbbbb" 1500 44700 "t" 3 "y")).mpr
      ⟨by decide, rfl, by decide⟩, h.2.2⟩

/-- C4: in each of the three wire-record shapes built for a message — a replay
response line, a live fan-out event, and the publish acknowledgment — the
`priority` key is absent exactly when the stored priority is 3, and carries the
exact stored value otherwise. -/
theorem C4_priority_omission (r : Item) :
    ((fetchLine r).priority = none ↔ r.priority = 3) ∧
    ((socketWire r).priority = none ↔ r.priority = 3) ∧
    ((ackWire r).priority = none ↔ r.priority = 3) ∧
    (r.priority ≠ 3 →
      (fetchLine r).priority = some r.priority ∧
      (socketWire r).priority = some r.priority ∧
      (ackWire r).priority = some r.priority) := by
  by_cases h : r.priority = 3 <;>
    simp [fetchLine, socketWire, ackWire, h]

/-- C4 witness: a priority-3 row has no `priority` key on any of the three
shapes, and a priority-5 row carries `some 5` on all of them. -/
theorem C4_priority_omission_witness :
    (fetchLine (Item.mk "aaaaaaaaaaaa" 1 2 "t" 3 "x")).priority = none ∧
    (fetchLine (Item.mk "aaaaaaaaaaaa" 1 2 "t" 5 "x")).priority = some 5 ∧
    (socketWire (Item.mk "aaaaaaaaaaaa" 1 2 "t" 5 "x")).priority = some 5 ∧
    (ackWire (Item.mk "aaaaaaaaaaaa" 1 2 "t" 5 "x")).priority = some 5 := by
  have h3 := C4_priority_omission (Item.mk "aaaaaaaaaaaa" 1 2 "t" 3 "x")
  have h5 := (C4_priority_omission (Item.mk "aaaaaaaaaaaa" 1 2 "t" 5 "x")).2.2.2
    (by decide)
  exact ⟨h3.1.mpr rfl, h5.1, h5.2.1, h5.2.2⟩

/-- C5: a 10-character selector always reaches the timestamp branch (the SQL
comparison of `time` against the raw text), and a 12-character selector always
reaches the message-id branch (subquery for the time of that id), regardless of
whether the string would also parse as a duration or as anything else. -/
theorem C5_length_dispatch (store : Store) (topic : String) (s : String) (now : Int) :
    (s.length = 10 →
      _query store topic (some s) now =
        store.filter (fun r => r.topic == topic && timeGEText r.time s)) ∧
    (s.length = 12 →
      _query store topic (some s) now = selectByTopicSinceId store topic s) := by
  constructor
  · intro h10
    have h1 : s ≠ "" := by intro h; rw [h] at h10; exact absurd h10 (by decide)
    have h2 : s ≠ "all" := by intro h; rw [h] at h10; exact absurd h10 (by decide)
    simp [_query, selectByTopicSinceText, h1, h2, h10]
  · intro h12
    have h1 : s ≠ "" := by intro h; rw [h] at h12; exact absurd h12 (by decide)
    have h2 : s ≠ "all" := by intro h; rw [h] at h12; exact absurd h12 (by decide)
    have h3 : ¬ s.length = 10 := by omega
    simp [_query, h1, h2, h3, h12]

/-- C5 witness: the 10-character selector "123456789s", although it matches the
duration regex, is handled as a timestamp (here: a non-numeric text, matching
no row), and a concrete 12-character id selector resolves through the stored
time of that id. -/
theorem C5_length_dispatch_witness :
    _query [Item.mk "aaaaaaaaaaaa" 1000 44200 "t" 3 "x"] "t" (some "123456789s") 0 =
      [Item.mk "aaaaaaaaaaaa" 1000 44200 "t" 3 "x"].filter
        (fun r => r.topic == "t" && timeGEText r.time "123456789s") ∧
    _query [Item.mk "aaaaaaaaaaaa" 1000 44200 "t" 3 "x"] "t" (some "aaaaaaaaaaaa") 0 =
      selectByTopicSinceId [Item.mk "aaaaaaaaaaaa" 1000 44200 "t" 3 "x"] "t" "aaaaaaaaaaaa" := by
  have h := C5_length_dispatch [Item.mk "aaaaaaaaaaaa" 1000 44200 "t" 3 "x"] "t"
    "123456789s" 0
  have h2 := C5_length_dispatch [Item.mk "aaaaaaaaaaaa" 1000 44200 "t" 3 "x"] "t"
    "aaaaaaaaaaaa" 0
  exact ⟨h.1 (by decide), h2.2 (by decide)⟩

/-- C6: the duration regex only matches lowercase unit letters, so an
uppercase-unit selector such as "2H" falls through every branch and yields the
empty list, although the unit switch has (unreachable) uppercase cases and the
lowercase "2h" selects messages with `time >= now - 7200`; here a message at
`time = 1000` with `now = 8200` is returned for "2h" but not for "2H". -/
theorem C6_uppercase_unit_divergence :
    matchesDurationRegex "2h" = true ∧
    matchesDurationRegex "2H" = false ∧
    _query [Item.mk "aaaaaaaaaaaa" 1000 44200 "t" 3 "x"] "t" (some "2h") 8200 =
      [Item.mk "aaaaaaaaaaaa" 1000 44200 "t" 3 "x"] ∧
    _query [Item.mk "aaaaaaaaaaaa" 1000 44200 "t" 3 "x"] "t" (some "2H") 8200 = [] := by
  refine ⟨rfl, rfl, by decide, by decide⟩

/-- C7: a priority header parsing to a value outside 1..5 makes the publish
return the structured 40007 error with no write and no fan-out; an absent
header parses to the default 3 and the publish proceeds, committing a
priority-3 row. -/
theorem C7_priority_validation (store : Store) (reg : Registry) (topic : String)
    (h : Option String) (body : String) (id : String) (now : Int) :
    (∀ v : Int, parseIntJS (jsOrDefault3 h) = some v → (v < 1 ∨ 5 < v) →
        publish store reg topic h body id now = .rejected err40007 ∧
        storeAfter (publish store reg topic h body id now) store = store ∧
        fanoutOf (publish store reg topic h body id now) = []) ∧
    parseIntJS (jsOrDefault3 none) = some 3 ∧
    (violatesUniqueId store (mkItem topic 3 (bodyOrTriggered body) id now) = false →
        publish store reg topic none body id now =
          .ok (store ++ [mkItem topic 3 (bodyOrTriggered body) id now])
            (ackWire (mkItem topic 3 (bodyOrTriggered body) id now))
            ((lookupTopic reg topic).map
              (fun c => (c, socketWire (mkItem topic 3 (bodyOrTriggered body) id now))))) := by
  refine ⟨?_, by decide, ?_⟩
  · intro v hv hrange
    have hpub : publish store reg topic h body id now = .rejected err40007 := by
      simp [publish, hv, hrange]
    exact ⟨hpub, by simp [hpub, storeAfter], by simp [hpub, fanoutOf]⟩
  · intro hfresh
    have hsave := save_ok_of_fresh_id store (mkItem topic 3 (bodyOrTriggered body) id now)
      hfresh
    have h3 : parseIntJS (jsOrDefault3 none) = some 3 := by decide
    simp [publish, h3, hsave]

/-- C7 witness: priority 7 is rejected with the 40007 payload and writes
nothing, while the headerless publish commits a priority-3 row with the body
coerced to "triggered". -/
theorem C7_priority_validation_witness :
    publish [] [] "t" (some "7") "" "idididididid" 50 = .rejected err40007 ∧
    storeAfter (publish [] [] "t" (some "7") "" "idididididid" 50) [] = [] ∧
    fanoutOf (publish [] [] "t" (some "7") "" "idididididid" 50) = [] ∧
    publish [] [] "t" none "" "idididididid" 50 =
      .ok [mkItem "t" 3 "triggered" "idididididid" 50]
        (ackWire (mkItem "t" 3 "triggered" "idididididid" 50)) [] := by
  have h := C7_priority_validation [] [] "t" (some "7") "" "idididididid" 50
  have h7 := h.1 7 (by decide) (by decide)
  have hd := h.2.2 (by decide)
  exact ⟨h7.1, h7.2.1, h7.2.2, hd⟩

/-- C8: a selector matching none of the five resolution rules yields the empty
list rather than an error, and a 12-character selector whose id is not among
the stored messages also yields the empty list. -/
theorem C8_unrecognized_selector_empty (store : Store) (topic : String) (s : String)
    (now : Int) :
    (s ≠ "" → s ≠ "all" → s.length ≠ 10 → s.length ≠ 12 →
        matchesDurationRegex s = false → _query store topic (some s) now = []) ∧
    (s.length = 12 → (∀ r ∈ store, r.id ≠ s) →
        _query store topic (some s) now = []) := by
  constructor
  · intro h1 h2 h3 h4 h5
    simp [_query, h1, h2, h3, h4, h5]
  · intro h12 hid
    have hfind : store.find? (fun r => r.id == s) = none := by
      rw [List.find?_eq_none]
      intro r hr
      simpa using hid r hr
    have h1 : s ≠ "" := by intro h; rw [h] at h12; exact absurd h12 (by decide)
    have h2 : s ≠ "all" := by intro h; rw [h] at h12; exact absurd h12 (by decide)
    have h3 : ¬ s.length = 10 := by omega
    simp [_query, selectByTopicSinceId, timeOfId, h1, h2, h3, h12, hfind]

/-- C8 witness: the unrecognized selector "yesterday" and a 12-character id
absent from the store both yield empty results on a nonempty topic. -/
theorem C8_unrecognized_selector_empty_witness :
    _query [Item.mk "aaaaaaaaaaaa" 1000 44200 "t" 3 "x"] "t" (some "yesterday") 0 = [] ∧
    _query [Item.mk "aaaaaaaaaaaa" 1000 44200 "t" 3 "x"] "t" (some "zzzzzzzzzzzz") 0 = [] := by
  have h := C8_unrecognized_selector_empty
    [Item.mk "aaaaaaaaaaaa" 1000 44200 "t" 3 "x"] "t" "yesterday" 0
  have h2 := C8_unrecognized_selector_empty
    [Item.mk "aaaaaaaaaaaa" 1000 44200 "t" 3 "x"] "t" "zzzzzzzzzzzz" 0
  refine ⟨h.1 (by decide) (by decide) (by decide) (by decide) (by decide), ?_⟩
  exact h2.2 (by decide) (by decide)

/-- An insert that reported success appended exactly the new row. -/
theorem save_ok_elim (store : Store) (item : Item) (store' : Store)
    (h : _save store item = .ok store') : store' = store ++ [item] := by
  unfold _save at h
  cases hc : (violatesUniqueId store item || violatesPrimaryKey store item) with
  | true => rw [hc] at h; simp at h
  | false => rw [hc] at h; simpa using h.symm

/-- C9: every record a publish delivers live is the wire form of a row present
in the committed store (fan-out happens only after a successful `_save`), and a
publish with no live subscriber for the topic still commits the row, with an
empty fan-out. -/
theorem C9_fanout_after_persist (store : Store) (reg : Registry) (topic : String)
    (h : Option String) (body : String) (id : String) (now : Int) :
    (∀ c w, (c, w) ∈ fanoutOf (publish store reg topic h body id now) →
        ∃ r, r ∈ storeAfter (publish store reg topic h body id now) store ∧
          w = socketWire r) ∧
    (∀ v : Int, parseIntJS (jsOrDefault3 h) = some v → 1 ≤ v → v ≤ 5 →
        violatesUniqueId store (mkItem topic v (bodyOrTriggered body) id now) = false →
        lookupTopic reg topic = [] →
        publish store reg topic h body id now =
          .ok (store ++ [mkItem topic v (bodyOrTriggered body) id now])
            (ackWire (mkItem topic v (bodyOrTriggered body) id now)) []) := by
  constructor
  · intro c w hw
    cases hp : parseIntJS (jsOrDefault3 h) with
    | none => simp [fanoutOf, publish, hp] at hw
    | some v =>
        by_cases hrange : v < 1 ∨ 5 < v
        · simp [fanoutOf, publish, hp, hrange] at hw
        · cases hs : _save store (mkItem topic v (bodyOrTriggered body) id now) with
          | error e => simp [fanoutOf, publish, hp, hrange, hs] at hw
          | ok store' =>
              have hpub : publish store reg topic h body id now =
                  .ok store' (ackWire (mkItem topic v (bodyOrTriggered body) id now))
                    ((lookupTopic reg topic).map
                      (fun c => (c, socketWire (mkItem topic v (bodyOrTriggered body) id now)))) := by
                simp [publish, hp, hrange, hs]
              rw [hpub] at hw
              simp only [fanoutOf, List.mem_map] at hw
              obtain ⟨c', _, hcw⟩ := hw
              refine ⟨mkItem topic v (bodyOrTriggered body) id now, ?_, ?_⟩
              · rw [hpub]
                simp [storeAfter, save_ok_elim store _ store' hs]
              · exact (congrArg Prod.snd hcw).symm
  · intro v hv h1 h5 hfresh hsubs
    have hsave := save_ok_of_fresh_id store (mkItem topic v (bodyOrTriggered body) id now)
      hfresh
    have hrange : ¬ (v < 1 ∨ 5 < v) := by omega
    simp [publish, hv, hrange, hsave, hsubs]

/-- C9 witness: with one live subscriber the delivered record is the wire form
of the committed row, and with no subscriber the row is still committed. -/
theorem C9_fanout_after_persist_witness :
    (∃ r, r ∈ storeAfter (publish [] [("t", [4])] "t" none "" "idididididid" 50) [] ∧
        socketWire (mkItem "t" 3 "triggered" "idididididid" 50) = socketWire r) ∧
    publish [] [] "t" none "" "idididididid" 50 =
      .ok [mkItem "t" 3 "triggered" "idididididid" 50]
        (ackWire (mkItem "t" 3 "triggered" "idididididid" 50)) [] := by
  constructor
  · exact (C9_fanout_after_persist [] [("t", [4])] "t" none "" "idididididid" 50).1
      4 (socketWire (mkItem "t" 3 "triggered" "idididididid" 50)) (by decide)
  · exact (C9_fanout_after_persist [] [] "t" none "" "idididididid" 50).2
      3 (by decide) (by decide) (by decide) (by decide) (by decide)

/-- The registry invariant: every topic key present maps to a nonempty
subscriber set. -/
def OkRegistry (reg : Registry) : Prop := ∀ p ∈ reg, p.2 ≠ []

/-- Adding a subscriber under one topic preserves the nonempty-set invariant:
a fresh topic entry is created already holding the client. -/
theorem okRegistry_addSub (t : String) (c : Nat) :
    ∀ reg : Registry, OkRegistry reg → OkRegistry (addSub t c reg)
  | [], _ => by
      intro p hp
      simp only [addSub, List.mem_singleton] at hp
      rw [hp]
      simp
  | (qt, qs) :: rest, h => by
      intro p hp
      have hrest : OkRegistry rest := fun r hr => h r (List.mem_cons_of_mem _ hr)
      simp only [addSub] at hp
      by_cases hq : qt = t
      · rw [if_pos hq] at hp
        rcases List.mem_cons.mp hp with h1 | h2
        · rw [h1]
          by_cases hc : c ∈ qs
          · simpa [hc] using h (qt, qs) (List.mem_cons_self _ _)
          · simp [hc]
        · exact h p (List.mem_cons_of_mem _ h2)
      · rw [if_neg hq] at hp
        rcases List.mem_cons.mp hp with h1 | h2
        · rw [h1]
          exact h (qt, qs) (List.mem_cons_self _ _)
        · exact okRegistry_addSub t c rest hrest p h2

/-- The subscribe loop preserves the nonempty-set invariant for any topic
list. -/
theorem okRegistry_subscribe (topics : List String) (c : Nat) :
    ∀ reg : Registry, OkRegistry reg → OkRegistry (subscribe topics c reg) := by
  induction topics with
  | nil => intro reg h; exact h
  | cons t ts ih =>
      intro reg h
      have := ih (addSub t c reg) (okRegistry_addSub t c reg h)
      simpa [subscribe] using this

/-- Filtering out one client twice is the same as filtering once. -/
theorem filter_ne_client_idem (c : Nat) (s : List Nat) :
    (s.filter (fun x => x ≠ c)).filter (fun x => x ≠ c) = s.filter (fun x => x ≠ c) := by
  rw [List.filter_filter]
  simp

/-- C10: the live registry never maps a topic to an empty subscriber set —
subscribing preserves the invariant (a new topic entry is born with its
subscriber), unsubscribing drops any entry it empties, and unsubscribing the
same handle twice leaves the registry exactly as one unsubscribe does. -/
theorem C10_registry_invariant (reg : Registry) (topics : List String) (client : Nat) :
    (OkRegistry reg → OkRegistry (subscribe topics client reg)) ∧
    OkRegistry (_close client reg) ∧
    _close client (_close client reg) = _close client reg := by
  refine ⟨okRegistry_subscribe topics client reg, ?_, ?_⟩
  · intro p hp
    have hp2 := (List.mem_filter.mp hp).2
    simpa using hp2
  · simp only [_close]
    have hid : (((reg.map (fun p => (p.1, p.2.filter (fun c => c ≠ client)))).filter
        (fun p => p.2 ≠ ([] : List Nat))).map
          (fun p => (p.1, p.2.filter (fun c => c ≠ client)))) =
        ((reg.map (fun p => (p.1, p.2.filter (fun c => c ≠ client)))).filter
          (fun p => p.2 ≠ ([] : List Nat))) := by
      have hmem : ∀ q ∈ ((reg.map (fun p => (p.1, p.2.filter (fun c => c ≠ client)))).filter
          (fun p => p.2 ≠ ([] : List Nat))),
          (fun p => (p.1, p.2.filter (fun c => c ≠ client))) q = q := by
        intro q hq
        have hq2 := List.mem_of_mem_filter hq
        obtain ⟨p, _, hpq⟩ := List.mem_map.mp hq2
        have : q.2.filter (fun c => c ≠ client) = q.2 := by
          rw [← hpq]
          exact filter_ne_client_idem client p.2
        calc (fun p => (p.1, p.2.filter (fun c => c ≠ client))) q
            = (q.1, q.2.filter (fun c => c ≠ client)) := rfl
          _ = (q.1, q.2) := by rw [this]
          _ = q := rfl
      calc ((reg.map (fun p => (p.1, p.2.filter (fun c => c ≠ client)))).filter
            (fun p => p.2 ≠ ([] : List Nat))).map
              (fun p => (p.1, p.2.filter (fun c => c ≠ client)))
          = ((reg.map (fun p => (p.1, p.2.filter (fun c => c ≠ client)))).filter
              (fun p => p.2 ≠ ([] : List Nat))).map id := List.map_congr_left hmem
        _ = _ := List.map_id _
    rw [hid, List.filter_filter]
    simp

/-- C10 witness: subscribing one client to two topics from the empty registry
keeps the invariant, and a double unsubscribe equals a single one on a concrete
registry holding two clients. -/
theorem C10_registry_invariant_witness :
    OkRegistry (subscribe ["alerts", "ops"] 4 []) ∧
    _close 4 (_close 4 [("alerts", [4, 5]), ("ops", [4])]) =
      _close 4 [("alerts", [4, 5]), ("ops", [4])] := by
  constructor
  · exact (C10_registry_invariant [] ["alerts", "ops"] 4).1 (by intro p hp; cases hp)
  · exact (C10_registry_invariant [("alerts", [4, 5]), ("ops", [4])] [] 4).2.2

end NtfyNode
